import Mathlib

/-!
# Verification of the nautilus_trader value-type core

Shallow embedding of two source files:

* `nautilus_core/core/src/nanos.rs` — the `UnixNanos` timestamp type
  (a newtype over `u64`) with its comparison and arithmetic impls.
* `nautilus_core/model/src/instruments/crypto_perpetual.rs` — the
  `CryptoPerpetual` instrument, its checked and panicking constructors,
  identity-based equality/hash, and the `Instrument` capability interface.

Machine integers are embedded as `Nat` (for `u64`/`u8`) and `Int` (for
`i64`).  Rust's arithmetic operators on unsigned integers treat overflow
and underflow as a program error (a panic under checked semantics), so
`+`, `-` and `*=` on `UnixNanos` are embedded as `Option`-valued
operations: `none` is the arithmetic failure, `some` the exact result.

Types that this repository defines outside the two files above
(`Price`, `Quantity`, `Money`, `Currency`, `Decimal`, the identifier
types, the `correctness` check helpers and the `InstrumentAny`
aggregator) are modelled from the spec; each such definition carries a
doc comment saying so.
-/

namespace Nautilus

/-- `UnixNanos`: a timestamp in nanoseconds since the UNIX epoch, a
newtype over `u64`.  The `val` field is the underlying `u64`, embedded
as `Nat`; validity (`val < 2^64`) is a hypothesis where it matters. -/
structure UnixNanos where
  val : Nat
  deriving DecidableEq, Repr

namespace UnixNanos

/-- `impl From<u64> for UnixNanos`. -/
def from_u64 (value : Nat) : UnixNanos := ⟨value⟩

/-- `as_u64`. -/
def as_u64 (self : UnixNanos) : Nat := self.val

/-- The derived `Ord` instance on the newtype: compares the underlying
`u64` values. -/
def cmp (self other : UnixNanos) : Ordering := compare self.val other.val

/-- `impl PartialEq<u64> for UnixNanos`: `self.0 == *other`. -/
def eq_u64 (self : UnixNanos) (other : Nat) : Bool := self.val == other

/-- `impl PartialOrd<u64> for UnixNanos` (`partial_cmp`):
`self.0.partial_cmp(other)`, total on integers. -/
def cmp_u64 (self : UnixNanos) (other : Nat) : Option Ordering :=
  some (compare self.val other)

/-- `impl PartialEq<Option<u64>> for UnixNanos`: equal to `Some(value)`
iff the payloads are equal, never equal to `None`. -/
def eq_opt (self : UnixNanos) (other : Option Nat) : Bool :=
  match other with
  | some value => self.val == value
  | none => false

/-- `impl PartialOrd<Option<u64>> for UnixNanos` (`partial_cmp`):
against `Some(value)` compares the payloads; against `None` the result
is `Some(Ordering::Greater)` — the present value compares greater than
the absent one. -/
def cmp_opt (self : UnixNanos) (other : Option Nat) : Option Ordering :=
  match other with
  | some value => some (compare self.val value)
  | none => some Ordering.gt

/-- `impl Add for UnixNanos`: `Self(self.0 + rhs.0)`.  Under checked
`u64` semantics a sum not representable in 64 bits is an overflow
failure (`none`), not a wrapped value. -/
def add (self rhs : UnixNanos) : Option UnixNanos :=
  if self.val + rhs.val < 2 ^ 64 then some ⟨self.val + rhs.val⟩ else none

/-- `impl Sub for UnixNanos`: `Self(self.0 - rhs.0)`.  Under checked
`u64` semantics subtracting a larger value is an underflow failure
(`none`), not a wrapped value. -/
def sub (self rhs : UnixNanos) : Option UnixNanos :=
  if rhs.val ≤ self.val then some ⟨self.val - rhs.val⟩ else none

/-- `impl AddAssign<T: Into<u64>> for UnixNanos`: `self.0 += other.into()`.
Embedded as the value the assignment stores (the incoming `T` already
converted to `u64`), with overflow a failure as in `add`. -/
def add_assign (self : UnixNanos) (other : Nat) : Option UnixNanos :=
  if self.val + other < 2 ^ 64 then some ⟨self.val + other⟩ else none

/-- `impl SubAssign<T: Into<u64>> for UnixNanos`: `self.0 -= other.into()`,
underflow a failure as in `sub`. -/
def sub_assign (self : UnixNanos) (other : Nat) : Option UnixNanos :=
  if other ≤ self.val then some ⟨self.val - other⟩ else none

/-- `impl MulAssign<T: Into<u64>> for UnixNanos`: `self.0 *= other.into()`,
overflow a failure. -/
def mul_assign (self : UnixNanos) (other : Nat) : Option UnixNanos :=
  if self.val * other < 2 ^ 64 then some ⟨self.val * other⟩ else none

end UnixNanos

/-- Modelled from the spec: the exchange-native symbol (a string), from
the identifier types this repository defines outside the given files. -/
structure Symbol where
  value : String
  deriving DecidableEq, Repr

/-- Modelled from the spec: "a unique instrument identifier plus the raw
exchange-native symbol" — an instrument identifier made of a symbol and
a venue, defined outside the given files. -/
structure InstrumentId where
  symbol : Symbol
  venue : String
  deriving DecidableEq, Repr

/-- Modelled from the spec: a currency, defined outside the given files;
claims depend on it only as an inert value, so only its code is kept. -/
structure Currency where
  code : String
  deriving DecidableEq, Repr

/-- Modelled from the spec: "price/quantity are fixed-point integers
paired with an explicit decimal-place count".  `Price` carries a signed
64-bit raw value (`check_positive_i64` is applied to `price_increment.raw`)
and a `u8` precision. -/
structure Price where
  raw : Int
  precision : Nat
  deriving DecidableEq, Repr

/-- Modelled from the spec: "price/quantity are fixed-point integers
paired with an explicit decimal-place count".  `Quantity` carries an
unsigned 64-bit raw value (`check_positive_u64` is applied to
`size_increment.raw`) and a `u8` precision. -/
structure Quantity where
  raw : Nat
  precision : Nat
  deriving DecidableEq, Repr

/-- Modelled from the spec: "an absent lot size becomes the smallest
representable unit (1)" — the quantity `Quantity::from(1)`, value one. -/
def Quantity.one : Quantity := ⟨1, 0⟩

/-- Modelled from the spec: a currency-denominated amount of money,
defined outside the given files; inert for the claims. -/
structure Money where
  raw : Int
  currency : Currency
  deriving DecidableEq, Repr

/-- Modelled from the spec: "arbitrary-precision decimals, not floating
point" — the decimal type used for fees and margins, defined outside the
given files; inert for the claims, kept as mantissa and scale. -/
structure Decimal where
  mantissa : Int
  scale : Nat
  deriving DecidableEq, Repr

/-- Modelled from the spec error taxonomy (§7): the structured failure a
check helper returns — `PrecisionMismatch{field_a, field_b}` when a
declared precision disagrees with an increment's encoded precision, and
`NonPositiveIncrement{field}` when an increment is zero or negative.
The concrete check helpers live in this repository's `correctness`
module, outside the given files. -/
inductive CheckError where
  | PrecisionMismatch (field_a field_b : String)
  | NonPositiveIncrement (field : String)
  deriving DecidableEq, Repr

/-- Modelled from the spec: `check_equal_u8(lhs, rhs, lhs_name, rhs_name)`
from the `correctness` module — succeeds iff the two `u8` values are
equal, otherwise reports the two offending fields. -/
def check_equal_u8 (lhs rhs : Nat) (lhs_name rhs_name : String) :
    Except CheckError Unit :=
  if lhs = rhs then Except.ok ()
  else Except.error (CheckError.PrecisionMismatch lhs_name rhs_name)

/-- Modelled from the spec: `check_positive_i64(value, name)` from the
`correctness` module — succeeds iff the `i64` value is strictly
positive, otherwise reports the offending field. -/
def check_positive_i64 (value : Int) (name : String) :
    Except CheckError Unit :=
  if 0 < value then Except.ok ()
  else Except.error (CheckError.NonPositiveIncrement name)

/-- Modelled from the spec: `check_positive_u64(value, name)` from the
`correctness` module — succeeds iff the `u64` value is strictly
positive, otherwise reports the offending field. -/
def check_positive_u64 (value : Nat) (name : String) :
    Except CheckError Unit :=
  if 0 < value then Except.ok ()
  else Except.error (CheckError.NonPositiveIncrement name)

/-- The `CryptoPerpetual` struct, field for field. -/
structure CryptoPerpetual where
  id : InstrumentId
  raw_symbol : Symbol
  base_currency : Currency
  quote_currency : Currency
  settlement_currency : Currency
  is_inverse : Bool
  price_precision : Nat
  size_precision : Nat
  price_increment : Price
  size_increment : Quantity
  maker_fee : Decimal
  taker_fee : Decimal
  margin_init : Decimal
  margin_maint : Decimal
  lot_size : Quantity
  max_quantity : Option Quantity
  min_quantity : Option Quantity
  max_notional : Option Money
  min_notional : Option Money
  max_price : Option Price
  min_price : Option Price
  ts_event : UnixNanos
  ts_init : UnixNanos
  deriving DecidableEq, Repr

namespace CryptoPerpetual

/-- `CryptoPerpetual::new_checked`: runs the four correctness checks in
source order, then builds the record, defaulting an absent `lot_size`
to `Quantity::from(1)`. -/
def new_checked (id : InstrumentId) (raw_symbol : Symbol)
    (base_currency quote_currency settlement_currency : Currency)
    (is_inverse : Bool) (price_precision size_precision : Nat)
    (price_increment : Price) (size_increment : Quantity)
    (maker_fee taker_fee margin_init margin_maint : Decimal)
    (lot_size max_quantity min_quantity : Option Quantity)
    (max_notional min_notional : Option Money)
    (max_price min_price : Option Price)
    (ts_event ts_init : UnixNanos) :
    Except CheckError CryptoPerpetual := do
  check_equal_u8 price_precision price_increment.precision
    "price_precision" "price_increment.precision"
  check_equal_u8 size_precision size_increment.precision
    "size_precision" "size_increment.precision"
  check_positive_i64 price_increment.raw "price_increment.raw"
  check_positive_u64 size_increment.raw "size_increment.raw"
  Except.ok
    { id := id
      raw_symbol := raw_symbol
      base_currency := base_currency
      quote_currency := quote_currency
      settlement_currency := settlement_currency
      is_inverse := is_inverse
      price_precision := price_precision
      size_precision := size_precision
      price_increment := price_increment
      size_increment := size_increment
      maker_fee := maker_fee
      taker_fee := taker_fee
      margin_init := margin_init
      margin_maint := margin_maint
      lot_size := lot_size.getD Quantity.one
      max_quantity := max_quantity
      min_quantity := min_quantity
      max_notional := max_notional
      min_notional := min_notional
      max_price := max_price
      min_price := min_price
      ts_event := ts_event
      ts_init := ts_init }

/-- `CryptoPerpetual::new`: calls `new_checked` and escalates a failure
with `.expect(...)` — a panic, embedded as `none`. -/
def new (id : InstrumentId) (raw_symbol : Symbol)
    (base_currency quote_currency settlement_currency : Currency)
    (is_inverse : Bool) (price_precision size_precision : Nat)
    (price_increment : Price) (size_increment : Quantity)
    (maker_fee taker_fee margin_init margin_maint : Decimal)
    (lot_size max_quantity min_quantity : Option Quantity)
    (max_notional min_notional : Option Money)
    (max_price min_price : Option Price)
    (ts_event ts_init : UnixNanos) : Option CryptoPerpetual :=
  (new_checked id raw_symbol base_currency quote_currency
    settlement_currency is_inverse price_precision size_precision
    price_increment size_increment maker_fee taker_fee margin_init
    margin_maint lot_size max_quantity min_quantity max_notional
    min_notional max_price min_price ts_event ts_init).toOption

/-- `impl PartialEq for CryptoPerpetual`: `self.id == other.id`. -/
def eq (self other : CryptoPerpetual) : Bool := self.id == other.id

/-- `impl Hash for CryptoPerpetual`: only `self.id` is fed to the
hasher, embedded by applying an arbitrary hasher to the hashed data. -/
def hashWith (hasher : InstrumentId → Nat) (self : CryptoPerpetual) : Nat :=
  hasher self.id

end CryptoPerpetual

/-- Modelled from the spec: the instrument aggregator, "a closed tagged
union: exactly one case per known instrument variant" — defined in
`instruments/any.rs`, outside the given files; the one variant given is
`CryptoPerpetual`. -/
inductive InstrumentAny where
  | CryptoPerpetual (inner : CryptoPerpetual)
  deriving DecidableEq, Repr

namespace CryptoPerpetual

/-- `Instrument::into_any` for `CryptoPerpetual`:
`InstrumentAny::CryptoPerpetual(self)`. -/
def into_any (self : CryptoPerpetual) : InstrumentAny :=
  InstrumentAny.CryptoPerpetual self

/-- Capability accessor `Instrument::price_precision` for
`CryptoPerpetual`: `self.price_precision`. -/
def price_precision_acc (self : CryptoPerpetual) : Nat :=
  self.price_precision

/-- Capability accessor `Instrument::min_quantity` for
`CryptoPerpetual`: `self.min_quantity`. -/
def min_quantity_acc (self : CryptoPerpetual) : Option Quantity :=
  self.min_quantity

/-- Capability accessor `Instrument::id` for `CryptoPerpetual`:
`self.id`. -/
def id_acc (self : CryptoPerpetual) : InstrumentId :=
  self.id

end CryptoPerpetual

namespace InstrumentAny

/-- Modelled from the spec: the aggregator's capability accessor for
`price_precision` — pattern-matched dispatch to the variant's accessor,
"the aggregator does not own any logic". -/
def price_precision_acc : InstrumentAny → Nat
  | CryptoPerpetual inner => inner.price_precision_acc

/-- Modelled from the spec: the aggregator's capability accessor for
`min_quantity` — pattern-matched dispatch to the variant's accessor. -/
def min_quantity_acc : InstrumentAny → Option Quantity
  | CryptoPerpetual inner => inner.min_quantity_acc

/-- Modelled from the spec: the aggregator's capability accessor for
`id` — pattern-matched dispatch to the variant's accessor. -/
def id_acc : InstrumentAny → InstrumentId
  | CryptoPerpetual inner => inner.id_acc

end InstrumentAny

/-! ## Sample concrete values, used by scenarios and witnesses -/

/-- A sample base currency. -/
def eth : Currency := ⟨"ETH"⟩

/-- A sample quote/settlement currency. -/
def usdt : Currency := ⟨"USDT"⟩

/-- A sample raw symbol. -/
def perp_symbol : Symbol := ⟨"ETHUSDT-PERP"⟩

/-- A sample instrument identifier. -/
def perp_id : InstrumentId := ⟨perp_symbol, "BINANCE"⟩

/-- The zero decimal. -/
def dec_zero : Decimal := ⟨0, 0⟩

/-- A sample fee rate. -/
def dec_fee1 : Decimal := ⟨2, 4⟩

/-- A second, different sample fee rate. -/
def dec_fee2 : Decimal := ⟨5, 4⟩

/-- The epoch timestamp. -/
def ts0 : UnixNanos := ⟨0⟩

/-- A sample valid instrument, built directly as a record. -/
def inst_a : CryptoPerpetual :=
  { id := perp_id
    raw_symbol := perp_symbol
    base_currency := eth
    quote_currency := usdt
    settlement_currency := usdt
    is_inverse := false
    price_precision := 2
    size_precision := 3
    price_increment := ⟨1, 2⟩
    size_increment := ⟨1, 3⟩
    maker_fee := dec_zero
    taker_fee := dec_fee1
    margin_init := dec_zero
    margin_maint := dec_zero
    lot_size := Quantity.one
    max_quantity := none
    min_quantity := none
    max_notional := none
    min_notional := none
    max_price := none
    min_price := none
    ts_event := ts0
    ts_init := ts0 }

/-- A copy of `inst_a` with a different taker fee (same identifier). -/
def inst_b : CryptoPerpetual := { inst_a with taker_fee := dec_fee2 }

/-! ## Helper characterization of the checked constructor -/

/-- `new_checked` unfolded to its four-way case split: the checks run in
source order and the first failing check's structured error is
returned; when all pass, the record is built with `lot_size`
defaulted. -/
theorem new_checked_def (id : InstrumentId) (raw_symbol : Symbol)
    (base_currency quote_currency settlement_currency : Currency)
    (is_inverse : Bool) (price_precision size_precision : Nat)
    (price_increment : Price) (size_increment : Quantity)
    (maker_fee taker_fee margin_init margin_maint : Decimal)
    (lot_size max_quantity min_quantity : Option Quantity)
    (max_notional min_notional : Option Money)
    (max_price min_price : Option Price)
    (ts_event ts_init : UnixNanos) :
    CryptoPerpetual.new_checked id raw_symbol base_currency quote_currency
      settlement_currency is_inverse price_precision size_precision
      price_increment size_increment maker_fee taker_fee margin_init
      margin_maint lot_size max_quantity min_quantity max_notional
      min_notional max_price min_price ts_event ts_init =
    (if price_precision = price_increment.precision then
      if size_precision = size_increment.precision then
        if 0 < price_increment.raw then
          if 0 < size_increment.raw then
            Except.ok
              { id := id
                raw_symbol := raw_symbol
                base_currency := base_currency
                quote_currency := quote_currency
                settlement_currency := settlement_currency
                is_inverse := is_inverse
                price_precision := price_precision
                size_precision := size_precision
                price_increment := price_increment
                size_increment := size_increment
                maker_fee := maker_fee
                taker_fee := taker_fee
                margin_init := margin_init
                margin_maint := margin_maint
                lot_size := lot_size.getD Quantity.one
                max_quantity := max_quantity
                min_quantity := min_quantity
                max_notional := max_notional
                min_notional := min_notional
                max_price := max_price
                min_price := min_price
                ts_event := ts_event
                ts_init := ts_init }
          else Except.error
            (CheckError.NonPositiveIncrement "size_increment.raw")
        else Except.error
          (CheckError.NonPositiveIncrement "price_increment.raw")
      else Except.error (CheckError.PrecisionMismatch
        "size_precision" "size_increment.precision")
    else Except.error (CheckError.PrecisionMismatch
      "price_precision" "price_increment.precision")) := by
  simp only [CryptoPerpetual.new_checked, check_equal_u8,
    check_positive_i64, check_positive_u64]
  split_ifs <;> rfl

/-! ## Claims -/

/-- C3: for all timestamps `t1 ≤ t2`, the subtraction `t2 - t1` (and the
compound `-=`) succeeds with the non-negative difference of the
underlying `u64` values; for `t1 < t2`, `t1 - t2` is a defined failure
(`none`), not a silent wraparound to a large value. -/
theorem sub_underflow_is_failure (t1 t2 : UnixNanos) (h : t1.val ≤ t2.val) :
    (UnixNanos.sub t2 t1 = some ⟨t2.val - t1.val⟩ ∧
      UnixNanos.sub_assign t2 t1.val = some ⟨t2.val - t1.val⟩) ∧
    (t1.val < t2.val →
      UnixNanos.sub t1 t2 = none ∧ UnixNanos.sub_assign t1 t2.val = none) := by
  refine ⟨⟨?_, ?_⟩, fun hlt => ⟨?_, ?_⟩⟩
  · simp only [UnixNanos.sub]; rw [if_pos h]
  · simp only [UnixNanos.sub_assign]; rw [if_pos h]
  · simp only [UnixNanos.sub]; rw [if_neg (by omega)]
  · simp only [UnixNanos.sub_assign]; rw [if_neg (by omega)]

/-- C3 witness: at `t1 = 3`, `t2 = 10`, the subtraction `10 - 3`
succeeds with `7` and `3 - 10` fails. -/
theorem sub_underflow_is_failure_witness :
    UnixNanos.sub ⟨10⟩ ⟨3⟩ = some ⟨7⟩ ∧ UnixNanos.sub ⟨3⟩ ⟨10⟩ = none := by
  have h := sub_underflow_is_failure ⟨3⟩ ⟨10⟩ (by decide)
  exact ⟨h.1.1, (h.2 (by decide)).1⟩

/-- C4 counterexample: the claim says `t.partial_cmp(&None)` yields
`Less` (i.e. `None > t`); at `t = 100` the code yields
`Some(Ordering::Greater)`, which is not `Some(Ordering::Less)`. -/
theorem absent_cmp_claim_false :
    UnixNanos.cmp_opt ⟨100⟩ none = some Ordering.gt ∧
      (some Ordering.gt : Option Ordering) ≠ some Ordering.lt := by
  exact ⟨rfl, by decide⟩

/-- C4 (amended): for every present timestamp `t`, the source's
comparison against the absent value yields `Greater` for `t`
(`t.partial_cmp(&None) = Some(Ordering::Greater)`, i.e. `t > None`:
absence orders strictly *below* every present value), while equality
still treats them as not equal (`t != None`). -/
theorem absent_orders_below_present (t : UnixNanos) :
    UnixNanos.cmp_opt t none = some Ordering.gt ∧
      UnixNanos.eq_opt t none = false := ⟨rfl, rfl⟩

/-- C5: `UnixNanos::from(100) > UnixNanos::from(50)` (the derived value
order), `UnixNanos::from(100) == 100`, `UnixNanos::from(100) != None`,
and `UnixNanos::from(100) > None` all hold. -/
theorem from_100_comparison_scenarios :
    UnixNanos.cmp (UnixNanos.from_u64 100) (UnixNanos.from_u64 50) =
        Ordering.gt ∧
      UnixNanos.eq_u64 (UnixNanos.from_u64 100) 100 = true ∧
      UnixNanos.eq_opt (UnixNanos.from_u64 100) none = false ∧
      UnixNanos.cmp_opt (UnixNanos.from_u64 100) none = some Ordering.gt := by
  refine ⟨?_, rfl, rfl, rfl⟩
  decide

/-- C10: addition and the compound operators are unchecked like
subtraction: when the underlying `u64` sum (respectively product for
`*=`) fits in 64 bits the exact value is produced, and when it would
exceed `2^64 - 1` the operation is an overflow failure (`none`), not a
silently wrapped value. -/
theorem add_overflow_is_failure (a b : UnixNanos) :
    (a.val + b.val < 2 ^ 64 →
      UnixNanos.add a b = some ⟨a.val + b.val⟩ ∧
        UnixNanos.add_assign a b.val = some ⟨a.val + b.val⟩) ∧
    (2 ^ 64 ≤ a.val + b.val →
      UnixNanos.add a b = none ∧ UnixNanos.add_assign a b.val = none) ∧
    (a.val * b.val < 2 ^ 64 →
      UnixNanos.mul_assign a b.val = some ⟨a.val * b.val⟩) ∧
    (2 ^ 64 ≤ a.val * b.val → UnixNanos.mul_assign a b.val = none) := by
  refine ⟨fun h => ⟨?_, ?_⟩, fun h => ⟨?_, ?_⟩, fun h => ?_, fun h => ?_⟩
  · simp only [UnixNanos.add]; rw [if_pos h]
  · simp only [UnixNanos.add_assign]; rw [if_pos h]
  · simp only [UnixNanos.add]; rw [if_neg (by omega)]
  · simp only [UnixNanos.add_assign]; rw [if_neg (by omega)]
  · simp only [UnixNanos.mul_assign]; rw [if_pos h]
  · simp only [UnixNanos.mul_assign]; rw [if_neg (by omega)]

/-- C10 witness: `3 + 4` fits and yields `7`; `2^63 + 2^63 = 2^64`
overflows and fails. -/
theorem add_overflow_is_failure_witness :
    UnixNanos.add ⟨3⟩ ⟨4⟩ = some ⟨7⟩ ∧
      UnixNanos.add ⟨2 ^ 63⟩ ⟨2 ^ 63⟩ = none := by
  refine ⟨((add_overflow_is_failure ⟨3⟩ ⟨4⟩).1 (by decide)).1, ?_⟩
  exact ((add_overflow_is_failure ⟨2 ^ 63⟩ ⟨2 ^ 63⟩).2.1 (by norm_num)).1

/-- C1: `new_checked` returns a valid instrument iff `price_precision`
equals `price_increment.precision`, `size_precision` equals
`size_increment.precision`, and both increments' raw values are
strictly positive; no other input affects whether construction
succeeds (all other arguments are universally quantified on both sides
of the equivalence). -/
theorem new_checked_ok_iff (id : InstrumentId) (raw_symbol : Symbol)
    (base_currency quote_currency settlement_currency : Currency)
    (is_inverse : Bool) (price_precision size_precision : Nat)
    (price_increment : Price) (size_increment : Quantity)
    (maker_fee taker_fee margin_init margin_maint : Decimal)
    (lot_size max_quantity min_quantity : Option Quantity)
    (max_notional min_notional : Option Money)
    (max_price min_price : Option Price)
    (ts_event ts_init : UnixNanos) :
    (∃ v, CryptoPerpetual.new_checked id raw_symbol base_currency
      quote_currency settlement_currency is_inverse price_precision
      size_precision price_increment size_increment maker_fee taker_fee
      margin_init margin_maint lot_size max_quantity min_quantity
      max_notional min_notional max_price min_price ts_event ts_init =
        Except.ok v) ↔
    (price_precision = price_increment.precision ∧
      size_precision = size_increment.precision ∧
      0 < price_increment.raw ∧ 0 < size_increment.raw) := by
  rw [new_checked_def]
  split_ifs with h1 h2 h3 h4 <;> simp_all

/-- C6: `new` is `new_checked` with the failure case escalated: it
performs the same checks, returns the identical instrument value
whenever `new_checked` succeeds, and panics (embedded as `none`)
exactly when `new_checked` fails. -/
theorem new_refines_new_checked (id : InstrumentId) (raw_symbol : Symbol)
    (base_currency quote_currency settlement_currency : Currency)
    (is_inverse : Bool) (price_precision size_precision : Nat)
    (price_increment : Price) (size_increment : Quantity)
    (maker_fee taker_fee margin_init margin_maint : Decimal)
    (lot_size max_quantity min_quantity : Option Quantity)
    (max_notional min_notional : Option Money)
    (max_price min_price : Option Price)
    (ts_event ts_init : UnixNanos) :
    CryptoPerpetual.new id raw_symbol base_currency quote_currency
      settlement_currency is_inverse price_precision size_precision
      price_increment size_increment maker_fee taker_fee margin_init
      margin_maint lot_size max_quantity min_quantity max_notional
      min_notional max_price min_price ts_event ts_init =
    (CryptoPerpetual.new_checked id raw_symbol base_currency
      quote_currency settlement_currency is_inverse price_precision
      size_precision price_increment size_increment maker_fee taker_fee
      margin_init margin_maint lot_size max_quantity min_quantity
      max_notional min_notional max_price min_price ts_event
      ts_init).toOption ∧
    (∀ v, CryptoPerpetual.new_checked id raw_symbol base_currency
      quote_currency settlement_currency is_inverse price_precision
      size_precision price_increment size_increment maker_fee taker_fee
      margin_init margin_maint lot_size max_quantity min_quantity
      max_notional min_notional max_price min_price ts_event ts_init =
        Except.ok v ↔
      CryptoPerpetual.new id raw_symbol base_currency quote_currency
        settlement_currency is_inverse price_precision size_precision
        price_increment size_increment maker_fee taker_fee margin_init
        margin_maint lot_size max_quantity min_quantity max_notional
        min_notional max_price min_price ts_event ts_init = some v) ∧
    ((∃ e, CryptoPerpetual.new_checked id raw_symbol base_currency
      quote_currency settlement_currency is_inverse price_precision
      size_precision price_increment size_increment maker_fee taker_fee
      margin_init margin_maint lot_size max_quantity min_quantity
      max_notional min_notional max_price min_price ts_event ts_init =
        Except.error e) ↔
      CryptoPerpetual.new id raw_symbol base_currency quote_currency
        settlement_currency is_inverse price_precision size_precision
        price_increment size_increment maker_fee taker_fee margin_init
        margin_maint lot_size max_quantity min_quantity max_notional
        min_notional max_price min_price ts_event ts_init = none) := by
  have key : ∀ (e : Except CheckError CryptoPerpetual),
      (∀ v, e = Except.ok v ↔ e.toOption = some v) ∧
        ((∃ err, e = Except.error err) ↔ e.toOption = none) := by
    intro e
    cases e <;> simp [Except.toOption]
  exact ⟨rfl, fun v => ((key _).1 v), (key _).2⟩

/-- C7: when `new_checked` fails it returns a structured failure naming
exactly the violated invariant (a precision mismatch naming the two
offending fields, or a non-positive increment naming the field); the
function is total (never panics).  In particular `price_precision = 2`
with a 3-decimal `price_increment` fails as a precision mismatch on the
price fields, and a zero `size_increment` fails as a non-positive
increment on `size_increment.raw`. -/
theorem new_checked_error_structure :
    (∀ (id : InstrumentId) (raw_symbol : Symbol)
      (base_currency quote_currency settlement_currency : Currency)
      (is_inverse : Bool) (price_precision size_precision : Nat)
      (price_increment : Price) (size_increment : Quantity)
      (maker_fee taker_fee margin_init margin_maint : Decimal)
      (lot_size max_quantity min_quantity : Option Quantity)
      (max_notional min_notional : Option Money)
      (max_price min_price : Option Price)
      (ts_event ts_init : UnixNanos) (e : CheckError),
      CryptoPerpetual.new_checked id raw_symbol base_currency
        quote_currency settlement_currency is_inverse price_precision
        size_precision price_increment size_increment maker_fee taker_fee
        margin_init margin_maint lot_size max_quantity min_quantity
        max_notional min_notional max_price min_price ts_event ts_init =
          Except.error e →
        (e = CheckError.PrecisionMismatch "price_precision"
            "price_increment.precision" ∧
          price_precision ≠ price_increment.precision) ∨
        (e = CheckError.PrecisionMismatch "size_precision"
            "size_increment.precision" ∧
          size_precision ≠ size_increment.precision) ∨
        (e = CheckError.NonPositiveIncrement "price_increment.raw" ∧
          price_increment.raw ≤ 0) ∨
        (e = CheckError.NonPositiveIncrement "size_increment.raw" ∧
          size_increment.raw = 0)) ∧
    CryptoPerpetual.new_checked perp_id perp_symbol eth usdt usdt false
      2 3 ⟨1, 3⟩ ⟨1, 3⟩ dec_zero dec_zero dec_zero dec_zero none none
      none none none none none ts0 ts0 =
      Except.error (CheckError.PrecisionMismatch "price_precision"
        "price_increment.precision") ∧
    CryptoPerpetual.new_checked perp_id perp_symbol eth usdt usdt false
      2 0 ⟨1, 2⟩ ⟨0, 0⟩ dec_zero dec_zero dec_zero dec_zero none none
      none none none none none ts0 ts0 =
      Except.error (CheckError.NonPositiveIncrement
        "size_increment.raw") := by
  refine ⟨?_, rfl, rfl⟩
  intro id rs bc qc sc ii pp sp pinc sinc mf tf mi mm ls mq nq mn nn mp
    np te ti e h
  rw [new_checked_def] at h
  split_ifs at h with h1 h2 h3 h4
  · injection h with he
    exact Or.inr (Or.inr (Or.inr ⟨he.symm, by omega⟩))
  · injection h with he
    exact Or.inr (Or.inr (Or.inl ⟨he.symm, by omega⟩))
  · injection h with he
    exact Or.inr (Or.inl ⟨he.symm, h2⟩)
  · injection h with he
    exact Or.inl ⟨he.symm, h1⟩

/-- C7 witness: applying the error characterization at the concrete
zero-`size_increment` construction, whose failure is discharged by
computation. -/
theorem new_checked_error_structure_witness :
    (CheckError.NonPositiveIncrement "size_increment.raw" =
        CheckError.PrecisionMismatch "price_precision"
          "price_increment.precision" ∧ (2 : Nat) ≠ 2) ∨
    (CheckError.NonPositiveIncrement "size_increment.raw" =
        CheckError.PrecisionMismatch "size_precision"
          "size_increment.precision" ∧ (0 : Nat) ≠ 0) ∨
    (CheckError.NonPositiveIncrement "size_increment.raw" =
        CheckError.NonPositiveIncrement "price_increment.raw" ∧
      (1 : Int) ≤ 0) ∨
    (CheckError.NonPositiveIncrement "size_increment.raw" =
        CheckError.NonPositiveIncrement "size_increment.raw" ∧
      (0 : Nat) = 0) :=
  new_checked_error_structure.1 perp_id perp_symbol eth usdt usdt false
    2 0 ⟨1, 2⟩ ⟨0, 0⟩ dec_zero dec_zero dec_zero dec_zero none none
    none none none none none ts0 ts0
    (CheckError.NonPositiveIncrement "size_increment.raw") rfl

/-- C8: every successful construction defaults an absent `lot_size` to
the quantity 1, keeps a supplied `lot_size`, and copies every other
field from the corresponding argument unchanged. -/
theorem lot_size_default (id : InstrumentId) (raw_symbol : Symbol)
    (base_currency quote_currency settlement_currency : Currency)
    (is_inverse : Bool) (price_precision size_precision : Nat)
    (price_increment : Price) (size_increment : Quantity)
    (maker_fee taker_fee margin_init margin_maint : Decimal)
    (lot_size max_quantity min_quantity : Option Quantity)
    (max_notional min_notional : Option Money)
    (max_price min_price : Option Price)
    (ts_event ts_init : UnixNanos) (v : CryptoPerpetual)
    (h : CryptoPerpetual.new_checked id raw_symbol base_currency
      quote_currency settlement_currency is_inverse price_precision
      size_precision price_increment size_increment maker_fee taker_fee
      margin_init margin_maint lot_size max_quantity min_quantity
      max_notional min_notional max_price min_price ts_event ts_init =
        Except.ok v) :
    (lot_size = none → v.lot_size = Quantity.one) ∧
    (∀ q, lot_size = some q → v.lot_size = q) ∧
    v.id = id ∧ v.raw_symbol = raw_symbol ∧
    v.base_currency = base_currency ∧ v.quote_currency = quote_currency ∧
    v.settlement_currency = settlement_currency ∧
    v.is_inverse = is_inverse ∧ v.price_precision = price_precision ∧
    v.size_precision = size_precision ∧
    v.price_increment = price_increment ∧
    v.size_increment = size_increment ∧ v.maker_fee = maker_fee ∧
    v.taker_fee = taker_fee ∧ v.margin_init = margin_init ∧
    v.margin_maint = margin_maint ∧ v.max_quantity = max_quantity ∧
    v.min_quantity = min_quantity ∧ v.max_notional = max_notional ∧
    v.min_notional = min_notional ∧ v.max_price = max_price ∧
    v.min_price = min_price ∧ v.ts_event = ts_event ∧
    v.ts_init = ts_init := by
  rw [new_checked_def] at h
  split_ifs at h
  injection h with hv
  subst hv
  exact ⟨fun h0 => by subst h0; rfl, fun q hq => by subst hq; rfl, rfl,
    rfl, rfl, rfl, rfl, rfl, rfl, rfl, rfl, rfl, rfl, rfl, rfl, rfl,
    rfl, rfl, rfl, rfl, rfl, rfl, rfl, rfl⟩

/-- C8 witness: the concrete construction of `inst_a` with an absent
lot size yields `lot_size = 1`. -/
theorem lot_size_default_witness : inst_a.lot_size = Quantity.one :=
  (lot_size_default perp_id perp_symbol eth usdt usdt false 2 3 ⟨1, 2⟩
    ⟨1, 3⟩ dec_zero dec_fee1 dec_zero dec_zero none none none none none
    none none ts0 ts0 inst_a rfl).1 rfl

/-- C2: two `CryptoPerpetual` values are equal iff their identifiers
are equal, and the hash depends only on the identifier, so instruments
with matching identifiers hash equal regardless of every other field. -/
theorem instrument_identity_semantics (a b : CryptoPerpetual) :
    (CryptoPerpetual.eq a b = true ↔ a.id = b.id) ∧
      (∀ hasher : InstrumentId → Nat, a.id = b.id →
        CryptoPerpetual.hashWith hasher a = CryptoPerpetual.hashWith hasher b) := by
  constructor
  · simp [CryptoPerpetual.eq]
  · intro hasher h
    simp [CryptoPerpetual.hashWith, h]

/-- C2 witness: `inst_a` and `inst_b` differ in their taker fee but
share an identifier, so they compare equal and hash equal, while their
fee fields differ. -/
theorem instrument_identity_semantics_witness :
    CryptoPerpetual.eq inst_a inst_b = true ∧
      CryptoPerpetual.hashWith (fun i => i.venue.length) inst_a =
        CryptoPerpetual.hashWith (fun i => i.venue.length) inst_b ∧
      inst_a.taker_fee ≠ inst_b.taker_fee := by
  have h := instrument_identity_semantics inst_a inst_b
  exact ⟨h.1.mpr rfl, h.2 (fun i => i.venue.length) rfl, by decide⟩

/-- C9: `into_any` is total and tags the value with its variant kind,
transforming nothing; so the aggregator reports, through the capability
accessors, the same `price_precision`, `min_quantity` and `id` as the
concrete value. -/
theorem into_any_preserves_value (v : CryptoPerpetual) :
    CryptoPerpetual.into_any v = InstrumentAny.CryptoPerpetual v ∧
      (CryptoPerpetual.into_any v).price_precision_acc =
        v.price_precision_acc ∧
      (CryptoPerpetual.into_any v).min_quantity_acc = v.min_quantity_acc ∧
      (CryptoPerpetual.into_any v).id_acc = v.id_acc :=
  ⟨rfl, rfl, rfl, rfl⟩

end Nautilus
